import Mathlib

/-!
Verification of the PaddlePaddle excerpt consisting of
`paddle/fluid/operators/lod_reset_op.h` (the LoD-reset buffer-remap kernel
and its gradient kernel) and `paddle/phi/core/memory/malloc.cc` (the public
memory API delegating to `AllocatorFacade`).

The C++ code is shallowly embedded: tensors become a record of a data
buffer, the leading extent of `dims()`, and the `LegacyLoD` annotation
(a list of offset levels); `PADDLE_ENFORCE_*` failures become `Except`
errors carrying the `InvalidArgument` message; machine-integer casts are
made explicit (`static_cast<size_t>(int)` and `static_cast<int64_t>(size_t)`
wrap modulo 2^64).
-/

/-- `static_cast<size_t>(a)` for a C++ signed integer `a`: two's-complement
conversion, i.e. the value modulo 2^64 (Lean's `Int.emod` with a positive
modulus is non-negative, so `toNat` is exact). -/
def sizeTofInt (a : Int) : Nat := (a % (2 ^ 64 : Int)).toNat

/-- `static_cast<int64_t>(n)` for a C++ `size_t` value `n`: two's-complement
reinterpretation of the low 64 bits. -/
def i64ofSizeT (n : Nat) : Int :=
  if n % 2 ^ 64 < 2 ^ 63 then ((n % 2 ^ 64 : Nat) : Int)
  else ((n % 2 ^ 64 : Nat) : Int) - 2 ^ 64

/-- Shallow embedding of `phi::DenseTensor` as used by `lod_reset_op.h`:
`data` is the element buffer, `dims0` is `dims()[0]` (an `int64_t`), and
`lod` is the `LegacyLoD` offset annotation (`lod()`), a list of levels of
`size_t` offsets.  For the `Input(Y)` tensor the buffer elements are read
as `int` (line 67), so the buffer is a list of `Int`. -/
structure DenseTensor where
  data : List Int
  dims0 : Int
  lod : List (List Nat)
deriving DecidableEq, Repr

/-- The errors raised by `lod_reset_op.h`: every `PADDLE_ENFORCE_*` in the
kernel constructs `common::errors::InvalidArgument` with a message. -/
inductive PaddleError where
  | InvalidArgument : String → PaddleError
deriving DecidableEq, Repr

/-- Message of the `PADDLE_ENFORCE_GT(level0.size(), 1UL, ...)` check
(lod_reset_op.h lines 79-85), with the formatted tail elided. -/
def msgLodSize : String := "The size of target LoD should be greater than 1."

/-- Message of the `PADDLE_ENFORCE_EQ(level0[0], 0, ...)` check
(lines 86-91). -/
def msgLodStart : String := "Target LoD should be a vector starting from 0."

/-- Message of the `PADDLE_ENFORCE_EQ(level0.back(), in->dims()[0], ...)`
check (lines 92-100). -/
def msgLodLast : String :=
  "The last value of Target LoD should be equal to the first dimension of Input X."

/-- Message of the `PADDLE_ENFORCE_GE(level0[i + 1], level0[i], ...)` check
inside the loop (lines 101-108). -/
def msgLodAscending : String := "Target LoD should be an ascending vector."

/-- Message of the `PADDLE_ENFORCE_EQ(last_level.back(), in->dims()[0], ...)`
check on a nested Input(Y) LoD (lines 54-63). -/
def msgYLodLast : String :=
  "The last value of Input Y last level LoD should be equal to the first dimension of Input X."

/-- Modelled from the spec: `framework::TensorCopy(*in, in->place(), out)`
(line 47) is declared in `tensor_util.h`, which is not part of the excerpt.
Per the spec the kernel must "produce an output that is a byte-for-byte copy
of the input annotated with the new offset index", so the copy transfers the
source buffer (and its leading extent) into the destination and does not
touch the destination's offset annotation; the annotation is installed by
the kernel afterwards (in append mode the kernel reads the destination's
current annotation and pushes a level onto it). -/
def TensorCopy (src dst : DenseTensor) : DenseTensor :=
  { dst with data := src.data, dims0 := src.dims0 }

/-- The ascending-check loop of lod_reset_op.h lines 101-108:
`for (i = 0; i < level0.size() - 1; ++i) PADDLE_ENFORCE_GE(level0[i+1], level0[i], ...)`,
throwing `InvalidArgument` at the first adjacent pair with
`level0[i+1] < level0[i]`.  Note the check is `GE`: equal adjacent offsets
pass. -/
def ascendingEnforce : List Int → Except PaddleError Unit
  | [] => .ok ()
  | [_] => .ok ()
  | a :: b :: rest =>
    if b ≥ a then ascendingEnforce (b :: rest)
    else .error (.InvalidArgument msgLodAscending)

/-- The flat-list validation sequence of lod_reset_op.h lines 79-108, in
source order: size > 1, first offset 0 (`level0[0]`, modelled by `headD`
under the size guard), last offset equal to `in->dims()[0]` (`level0.back()`,
modelled by `getLastD` under the size guard), then the ascending loop. -/
def validateTargetLod (level0 : List Int) (dims0 : Int) : Except PaddleError Unit :=
  if level0.length > 1 then
    if level0.headD 0 = 0 then
      if level0.getLastD 0 = dims0 then
        ascendingEnforce level0
      else .error (.InvalidArgument msgLodLast)
    else .error (.InvalidArgument msgLodStart)
  else .error (.InvalidArgument msgLodSize)

/-- Lines 110-122: cast the validated list to `size_t` (`ulevel0`), then
either `out->mutable_lod()->push_back(ulevel0)` when `append` is true, or
`out->set_lod({ulevel0})` when it is false. -/
def applyTargetLod (out : DenseTensor) (level0 : List Int) (append : Bool) : DenseTensor :=
  let ulevel0 : List Nat := level0.map sizeTofInt
  if append then { out with lod := out.lod ++ [ulevel0] }
  else { out with lod := [ulevel0] }

/-- `LoDResetKernel::Compute` (lod_reset_op.h lines 41-123).  Inputs: the
`Input(X)` tensor `x`, the pre-call state `out0` of the `Output(Out)` tensor,
the optional `Input(Y)` tensor, the `target_lod` attribute and the `append`
attribute.  Control flow follows the source: copy the buffer first (line 47);
if `Y` is present with a non-empty LoD, check only that the last value of its
last level equals `x.dims0` and adopt the LoD wholesale (lines 51-65, early
return); otherwise take the flat list from `Y`'s buffer (read as `int`, lines
67-73; the GPU branch at lines 69-72 only copies the same values to the host
and is place-independent here) or from the `target_lod` attribute (line 76),
validate it, and install it (append or replace). -/
def LoDResetCompute (x out0 : DenseTensor) (y : Option DenseTensor)
    (targetLodAttr : List Int) (append : Bool) : Except PaddleError DenseTensor :=
  let out := TensorCopy x out0
  match y with
  | some lodT =>
    if lodT.lod.length > 0 then
      let yLod := lodT.lod
      let lastLevel := yLod.getLastD []
      if i64ofSizeT (lastLevel.getLastD 0) = x.dims0 then
        .ok { out with lod := yLod }
      else
        .error (.InvalidArgument msgYLodLast)
    else
      match validateTargetLod lodT.data x.dims0 with
      | .ok _ => .ok (applyTargetLod out lodT.data append)
      | .error e => .error e
  | none =>
    match validateTargetLod targetLodAttr x.dims0 with
    | .ok _ => .ok (applyTargetLod out targetLodAttr append)
    | .error e => .error e

/-- `LoDResetGradKernel::Compute` (lod_reset_op.h lines 126-135): a single
`framework::TensorCopy(*d_out, d_out->place(), d_x)` with no validation. -/
def LoDResetGradCompute (dOut dX0 : DenseTensor) : DenseTensor :=
  TensorCopy dOut dX0

deriving instance DecidableEq for Except

/-- True exactly when the kernel result is a failure carrying
`InvalidArgument`. -/
def failsInvalidArgument : Except PaddleError DenseTensor → Bool
  | .error (.InvalidArgument _) => true
  | _ => false

/- ----------------------------------------------------------------- -/
/- The public memory API of `paddle/phi/core/memory/malloc.cc`.       -/
/- ----------------------------------------------------------------- -/

/-- `phi::Place`: a tagged identifier of a memory domain. -/
inductive Place where
  | cpu : Place
  | gpu : Nat → Place
  | gpuPinned : Place
  | custom : String → Nat → Place
deriving DecidableEq, Repr

/-- `phi::GPUPlace` as used by the stream-scoped `Release` overload. -/
structure GPUPlace where
  deviceId : Nat
deriving DecidableEq, Repr

/-- The interface of `allocation::AllocatorFacade` as consumed by
`malloc.cc`: one method per call site, with the result and handle types
abstract (the facade implementation is outside the excerpt).  `SA` stands
for `std::shared_ptr<Allocation>`, `AP` for `AllocationPtr`, `ST` for
`phi::Stream`, `GS` for `gpuStream_t`; `void*` and `uint64_t` become `Nat`. -/
structure AllocatorFacade (SA AP ST GS : Type) where
  AllocShared : Place → Nat → SA
  Alloc : Place → Nat → AP
  Release : Place → Nat
  AllocSharedStream : Place → Nat → ST → SA
  AllocStream : Place → Nat → ST → AP
  InSameStream : SA → ST → Bool
  GetBasePtr : SA → Nat
  ReleaseStream : GPUPlace → GS → Nat
  RecordStream : SA → GS → Bool
  EraseStream : SA → GS → Unit
  GetStream : SA → GS

/-- `paddle::memory::AllocShared(place, size)` (malloc.cc lines 23-25).  The
C++ process-wide singleton `AllocatorFacade::Instance()` is passed
explicitly as `F`. -/
def memAllocShared {SA AP ST GS : Type} (F : AllocatorFacade SA AP ST GS)
    (place : Place) (size : Nat) : SA :=
  F.AllocShared place size

/-- `paddle::memory::Alloc(place, size)` (malloc.cc lines 27-29). -/
def memAlloc {SA AP ST GS : Type} (F : AllocatorFacade SA AP ST GS)
    (place : Place) (size : Nat) : AP :=
  F.Alloc place size

/-- `paddle::memory::Release(place)` (malloc.cc lines 31-33). -/
def memRelease {SA AP ST GS : Type} (F : AllocatorFacade SA AP ST GS)
    (place : Place) : Nat :=
  F.Release place

/-- `paddle::memory::AllocShared(place, size, stream)` (lines 35-40). -/
def memAllocSharedStream {SA AP ST GS : Type} (F : AllocatorFacade SA AP ST GS)
    (place : Place) (size : Nat) (stream : ST) : SA :=
  F.AllocSharedStream place size stream

/-- `paddle::memory::Alloc(place, size, stream)` (lines 42-46). -/
def memAllocStream {SA AP ST GS : Type} (F : AllocatorFacade SA AP ST GS)
    (place : Place) (size : Nat) (stream : ST) : AP :=
  F.AllocStream place size stream

/-- `paddle::memory::InSameStream(allocation, stream)` (lines 48-52). -/
def memInSameStream {SA AP ST GS : Type} (F : AllocatorFacade SA AP ST GS)
    (allocation : SA) (stream : ST) : Bool :=
  F.InSameStream allocation stream

/-- `paddle::memory::GetBasePtr(allocation)` (lines 54-56). -/
def memGetBasePtr {SA AP ST GS : Type} (F : AllocatorFacade SA AP ST GS)
    (allocation : SA) : Nat :=
  F.GetBasePtr allocation

/-- `paddle::memory::Release(place, stream)` (lines 59-61, CUDA/HIP build). -/
def memReleaseStream {SA AP ST GS : Type} (F : AllocatorFacade SA AP ST GS)
    (place : GPUPlace) (stream : GS) : Nat :=
  F.ReleaseStream place stream

/-- `paddle::memory::RecordStream(allocation, stream)` (lines 63-66). -/
def memRecordStream {SA AP ST GS : Type} (F : AllocatorFacade SA AP ST GS)
    (allocation : SA) (stream : GS) : Bool :=
  F.RecordStream allocation stream

/-- `paddle::memory::EraseStream(allocation, stream)` (lines 68-71). -/
def memEraseStream {SA AP ST GS : Type} (F : AllocatorFacade SA AP ST GS)
    (allocation : SA) (stream : GS) : Unit :=
  F.EraseStream allocation stream

/-- `paddle::memory::GetStream(allocation)` (lines 73-75). -/
def memGetStream {SA AP ST GS : Type} (F : AllocatorFacade SA AP ST GS)
    (allocation : SA) : GS :=
  F.GetStream allocation

/-- An allocation handle: base pointer, size in bytes, owning place. -/
structure Allocation where
  basePtr : Nat
  size : Nat
  place : Place
deriving DecidableEq, Repr

/-- Result of an allocation request: a handle or `OutOfMemory`; there is no
null result. -/
inductive AllocResult where
  | ok : Allocation → AllocResult
  | OutOfMemory : AllocResult
deriving DecidableEq, Repr

/-- Modelled from the spec: the allocator strategy reached by
`AllocatorFacade::Instance().Alloc(place, size)` lives in
`allocator_facade.cc`, which is not part of the excerpt.  Per the spec each
strategy exposes `allocate(size) -> Allocation | OutOfMemory`, returns an
allocation of at least the requested size in the requested place, services
size-0 requests with a valid zero-sized allocation, and surfaces
`OutOfMemory` only on exhaustion.  We model the resolved strategy as a
pooled allocator with capacity `pool` and next free offset `off`. -/
def strategyAlloc (pool off : Nat) (place : Place) (size : Nat) : AllocResult :=
  if off + size ≤ pool then .ok ⟨off, size, place⟩ else .OutOfMemory

/-- The facade instance assembled from the spec-modelled strategy, used to
instantiate the abstract handle types of `AllocatorFacade` so that
`memAlloc` can be evaluated. -/
def modelFacade (pool off : Nat) : AllocatorFacade AllocResult AllocResult Nat Nat where
  AllocShared := strategyAlloc pool off
  Alloc := strategyAlloc pool off
  Release := fun _ => pool - off
  AllocSharedStream := fun p n _ => strategyAlloc pool off p n
  AllocStream := fun p n _ => strategyAlloc pool off p n
  InSameStream := fun _ _ => true
  GetBasePtr := fun _ => off
  ReleaseStream := fun _ _ => pool - off
  RecordStream := fun _ _ => true
  EraseStream := fun _ _ => ()
  GetStream := fun _ => 0

/- ----------------------------------------------------------------- -/
/- Helper lemmas about the embedded kernel.                           -/
/- ----------------------------------------------------------------- -/

/-- The ascending-check loop either passes or raises `InvalidArgument` with
the ascending message; no other outcome exists. -/
theorem ascendingEnforce_cases : ∀ l : List Int,
    ascendingEnforce l = .ok () ∨
      ascendingEnforce l = .error (.InvalidArgument msgLodAscending)
  | [] => .inl rfl
  | [_] => .inl rfl
  | a :: b :: rest => by
    rw [ascendingEnforce]
    by_cases h : b ≥ a
    · rw [if_pos h]; exact ascendingEnforce_cases (b :: rest)
    · rw [if_neg h]; exact .inr rfl

/-- The ascending-check loop passes exactly on lists whose adjacent pairs
are non-decreasing. -/
theorem ascendingEnforce_eq_ok_iff : ∀ l : List Int,
    ascendingEnforce l = .ok () ↔ l.Chain' (· ≤ ·)
  | [] => by simp [ascendingEnforce]
  | [a] => by simp [ascendingEnforce]
  | a :: b :: rest => by
    rw [ascendingEnforce, List.chain'_cons]
    by_cases h : b ≥ a
    · rw [if_pos h, ascendingEnforce_eq_ok_iff (b :: rest)]
      rw [ge_iff_le] at h
      simp [h]
    · rw [if_neg h]
      rw [ge_iff_le] at h
      simp [h]

/-- Characterization of a passing flat-list validation: more than one
offset, first offset 0, last offset equal to the extent, adjacent pairs
non-decreasing. -/
theorem validateTargetLod_eq_ok_iff (l : List Int) (d : Int) :
    validateTargetLod l d = .ok () ↔
      1 < l.length ∧ l.headD 0 = 0 ∧ l.getLastD 0 = d ∧ l.Chain' (· ≤ ·) := by
  unfold validateTargetLod
  split_ifs with h1 h2 h3
  · rw [ascendingEnforce_eq_ok_iff]
    exact ⟨fun hc => ⟨h1, h2, h3, hc⟩, fun hc => hc.2.2.2⟩
  · exact ⟨fun hc => absurd hc (by simp), fun hc => absurd hc.2.2.1 h3⟩
  · exact ⟨fun hc => absurd hc (by simp), fun hc => absurd hc.2.1 h2⟩
  · exact ⟨fun hc => absurd hc (by simp), fun hc => absurd hc.1 h1⟩

/-- Every outcome of the flat-list validation is a pass or an
`InvalidArgument` failure. -/
theorem validateTargetLod_cases (l : List Int) (d : Int) :
    validateTargetLod l d = .ok () ∨
      ∃ msg, validateTargetLod l d = .error (.InvalidArgument msg) := by
  unfold validateTargetLod
  split_ifs with h1 h2 h3
  · rcases ascendingEnforce_cases l with h | h
    · exact .inl h
    · exact .inr ⟨msgLodAscending, h⟩
  · exact .inr ⟨msgLodLast, rfl⟩
  · exact .inr ⟨msgLodStart, rfl⟩
  · exact .inr ⟨msgLodSize, rfl⟩

/-- A flat list with at most one element fails the validation at the very
first check, with the size message. -/
theorem validateTargetLod_short (l : List Int) (d : Int) (h : l.length ≤ 1) :
    validateTargetLod l d = .error (.InvalidArgument msgLodSize) := by
  unfold validateTargetLod
  rw [if_neg (by omega)]

/-- Unfolding of the kernel on the `target_lod`-attribute route. -/
theorem compute_none_eq (x out0 : DenseTensor) (l : List Int) (ap : Bool) :
    LoDResetCompute x out0 none l ap =
      match validateTargetLod l x.dims0 with
      | .ok _ => .ok (applyTargetLod (TensorCopy x out0) l ap)
      | .error e => .error e := rfl

/-- A LoD-less Input(Y) tensor and the `target_lod` attribute feed the same
flat list into the same validation and installation code (lines 66-77). -/
theorem compute_some_flat (x out0 : DenseTensor) (yd : List Int) (d0 : Int)
    (tl : List Int) (ap : Bool) :
    LoDResetCompute x out0 (some ⟨yd, d0, []⟩) tl ap
      = LoDResetCompute x out0 none yd ap := rfl

/-- Unfolding of the kernel on the nested-Input(Y) route (lines 51-65). -/
theorem compute_nested_eq (x out0 : DenseTensor) (yd : List Int) (d0 : Int)
    (yLod : List (List Nat)) (tl : List Int) (ap : Bool) (hy : yLod ≠ []) :
    LoDResetCompute x out0 (some ⟨yd, d0, yLod⟩) tl ap =
      if i64ofSizeT ((yLod.getLastD []).getLastD 0) = x.dims0 then
        .ok ⟨x.data, x.dims0, yLod⟩
      else .error (.InvalidArgument msgYLodLast) := by
  have hlen : yLod.length > 0 := List.length_pos.mpr hy
  simp only [LoDResetCompute, TensorCopy, if_pos hlen]

/-- A kernel result that is not a success is an `InvalidArgument` failure. -/
theorem failsInvalidArgument_of_no_ok (r : Except PaddleError DenseTensor)
    (h : ∀ t, r ≠ .ok t) : failsInvalidArgument r = true := by
  match r with
  | .ok t => exact absurd rfl (h t)
  | .error (.InvalidArgument _) => rfl

/-- On the attribute route the kernel fails with `InvalidArgument` whenever
the flat-list validation does not pass. -/
theorem compute_none_fails_of_validate_ne (x out0 : DenseTensor) (l : List Int)
    (ap : Bool) (h : validateTargetLod l x.dims0 ≠ .ok ()) :
    failsInvalidArgument (LoDResetCompute x out0 none l ap) = true := by
  rcases validateTargetLod_cases l x.dims0 with hv | ⟨msg, hv⟩
  · exact absurd hv h
  · rw [compute_none_eq, hv]; rfl

/-- The kernel propagates the exact validation error on the attribute
route. -/
theorem compute_none_err_of_validate_err (x out0 : DenseTensor) (l : List Int)
    (ap : Bool) (e : PaddleError) (h : validateTargetLod l x.dims0 = .error e) :
    LoDResetCompute x out0 none l ap = .error e := by
  rw [compute_none_eq, h]

/-- A successful attribute-route run passed the validation and installed
the target level. -/
theorem compute_none_ok_iff (x out0 : DenseTensor) (l : List Int) (ap : Bool)
    (t : DenseTensor) :
    LoDResetCompute x out0 none l ap = .ok t ↔
      validateTargetLod l x.dims0 = .ok () ∧
        t = applyTargetLod (TensorCopy x out0) l ap := by
  rw [compute_none_eq]
  cases hv : validateTargetLod l x.dims0 with
  | ok u =>
    cases u
    constructor
    · intro h
      exact ⟨rfl, ((Except.ok.injEq _ _).mp h).symm⟩
    · intro ⟨_, ht⟩
      rw [ht]
  | error e =>
    constructor
    · intro h
      exact absurd h (by simp)
    · intro ⟨hok, _⟩
      exact absurd hok (by simp)

/-- `Chain' (· ≤ ·)` gives the `getD`-indexed adjacent inequality the
kernel loop checks. -/
theorem chain'_le_getD (l : List Int) (hc : l.Chain' (· ≤ ·)) (i : Nat)
    (hi : i + 1 < l.length) : l.getD i 0 ≤ l.getD (i + 1) 0 := by
  rw [List.getD_eq_getElem l 0 (by omega), List.getD_eq_getElem l 0 hi]
  have h := List.chain'_iff_get.mp hc i (by omega)
  rwa [List.get_eq_getElem, List.get_eq_getElem] at h

/- ----------------------------------------------------------------- -/
/- Claim theorems.                                                    -/
/- ----------------------------------------------------------------- -/

/-- C1 (amended): for every flat offset list, supplied via a LoD-less
Input(Y) tensor or via the `target_lod` attribute, that contains an adjacent
pair of offsets where the later offset is strictly smaller than the earlier
one, the kernel fails with `InvalidArgument` (in particular [0, 3, 2, 5] is
rejected); the loop enforces `level0[i+1] >= level0[i]` (non-decreasing, not
strictly increasing), so equal adjacent offsets are accepted. -/
theorem C1_descending_pair_rejected (x out0 : DenseTensor) (l : List Int)
    (d0 : Int) (ap : Bool) (i : Nat) (hi : i + 1 < l.length)
    (hdesc : l.getD (i + 1) 0 < l.getD i 0) :
    failsInvalidArgument (LoDResetCompute x out0 none l ap) = true ∧
    failsInvalidArgument (LoDResetCompute x out0 (some ⟨l, d0, []⟩) [] ap) = true := by
  have hfail : failsInvalidArgument (LoDResetCompute x out0 none l ap) = true := by
    apply compute_none_fails_of_validate_ne
    intro hv
    have hc := (validateTargetLod_eq_ok_iff l x.dims0).mp hv
    exact absurd (chain'_le_getD l hc.2.2.2 i hi) (not_le.mpr hdesc)
  exact ⟨hfail, by rw [compute_some_flat]; exact hfail⟩

/-- C1 witness: the descending pair (3, 2) of [0, 3, 2, 5] satisfies the
theorem's hypotheses, and the kernel rejects that list at extent 5. -/
theorem C1_descending_pair_rejected_witness :
    (1 + 1 < ([0, 3, 2, 5] : List Int).length ∧
      ([0, 3, 2, 5] : List Int).getD 2 0 < ([0, 3, 2, 5] : List Int).getD 1 0) ∧
    failsInvalidArgument (LoDResetCompute ⟨[10, 20, 30, 40, 50], 5, []⟩ ⟨[], 0, []⟩
      none [0, 3, 2, 5] false) = true :=
  ⟨⟨by decide, by decide⟩,
    (C1_descending_pair_rejected ⟨[10, 20, 30, 40, 50], 5, []⟩ ⟨[], 0, []⟩
      [0, 3, 2, 5] 0 false 1 (by decide) (by decide)).1⟩

/-- C1 counterexample: [0, 2, 2, 5] contains the adjacent pair (2, 2) whose
later offset is not strictly greater than the earlier one, yet the kernel
accepts it at extent 5: the check is `PADDLE_ENFORCE_GE`, so validation is
of non-decreasing order, not strict monotonicity. -/
theorem C1_equal_adjacent_offsets_accepted :
    ¬(([0, 2, 2, 5] : List Int).getD 1 0 < ([0, 2, 2, 5] : List Int).getD 2 0) ∧
    LoDResetCompute ⟨[10, 20, 30, 40, 50], 5, []⟩ ⟨[], 0, []⟩ none [0, 2, 2, 5] false
      = .ok ⟨[10, 20, 30, 40, 50], 5, [[0, 2, 2, 5]]⟩ :=
  ⟨by decide, by decide⟩

/-- C2: when Input(Y) carries a non-empty nested LoD, the kernel checks only
that the last value of the last level equals the input extent, adopts the
nested index wholesale as the output's annotation (no monotonicity or
starting-at-0 revalidation: `yLod` here is arbitrary), and returns without
running any flat-list validation. -/
theorem C2_nested_lod_adopted (x out0 : DenseTensor) (yd : List Int) (d0 : Int)
    (yLod : List (List Nat)) (tl : List Int) (ap : Bool) (hy : yLod ≠ [])
    (hlast : i64ofSizeT ((yLod.getLastD []).getLastD 0) = x.dims0) :
    LoDResetCompute x out0 (some ⟨yd, d0, yLod⟩) tl ap
      = .ok ⟨x.data, x.dims0, yLod⟩ := by
  rw [compute_nested_eq x out0 yd d0 yLod tl ap hy, if_pos hlast]

/-- C2 witness: the non-monotone nested index [[0, 3, 2, 5]] whose last
value equals the extent 5 is adopted as-is, successfully. -/
theorem C2_nested_lod_adopted_witness :
    ([[0, 3, 2, 5]] : List (List Nat)) ≠ [] ∧
    LoDResetCompute ⟨[10, 20, 30, 40, 50], 5, []⟩ ⟨[], 0, []⟩
      (some ⟨[7], 1, [[0, 3, 2, 5]]⟩) [9] true
      = .ok ⟨[10, 20, 30, 40, 50], 5, [[0, 3, 2, 5]]⟩ :=
  ⟨by decide,
    C2_nested_lod_adopted ⟨[10, 20, 30, 40, 50], 5, []⟩ ⟨[], 0, []⟩ [7] 1
      [[0, 3, 2, 5]] [9] true (by decide) (by decide)⟩

/-- C3: a flat offset list whose last element differs from the input extent
fails with `InvalidArgument`; concretely at extent 5 the list [0, 2, 5]
succeeds and [0, 2, 4] fails with `InvalidArgument`. -/
theorem C3_last_offset_must_equal_extent (x out0 : DenseTensor) (l : List Int)
    (ap : Bool) (hlast : l.getLastD 0 ≠ x.dims0) :
    failsInvalidArgument (LoDResetCompute x out0 none l ap) = true ∧
    LoDResetCompute ⟨[10, 20, 30, 40, 50], 5, []⟩ ⟨[], 0, []⟩ none [0, 2, 5] false
      = .ok ⟨[10, 20, 30, 40, 50], 5, [[0, 2, 5]]⟩ ∧
    LoDResetCompute ⟨[10, 20, 30, 40, 50], 5, []⟩ ⟨[], 0, []⟩ none [0, 2, 4] false
      = .error (.InvalidArgument msgLodLast) := by
  refine ⟨?_, by decide, by decide⟩
  apply compute_none_fails_of_validate_ne
  intro hv
  exact absurd ((validateTargetLod_eq_ok_iff l x.dims0).mp hv).2.2.1 hlast

/-- C3 witness: [0, 2, 4] has last element 4 ≠ 5 and is rejected at
extent 5. -/
theorem C3_last_offset_must_equal_extent_witness :
    ([0, 2, 4] : List Int).getLastD 0 ≠ (5 : Int) ∧
    failsInvalidArgument (LoDResetCompute ⟨[10, 20, 30, 40, 50], 5, []⟩ ⟨[], 0, []⟩
      none [0, 2, 4] false) = true :=
  ⟨by decide,
    (C3_last_offset_must_equal_extent ⟨[10, 20, 30, 40, 50], 5, []⟩ ⟨[], 0, []⟩
      [0, 2, 4] false (by decide)).1⟩

/-- C5: a flat offset list whose first element is not 0, supplied on either
flat route, fails with `InvalidArgument`. -/
theorem C5_first_offset_must_be_zero (x out0 : DenseTensor) (l : List Int)
    (d0 : Int) (ap : Bool) (hfirst : l.headD 0 ≠ 0) :
    failsInvalidArgument (LoDResetCompute x out0 none l ap) = true ∧
    failsInvalidArgument (LoDResetCompute x out0 (some ⟨l, d0, []⟩) [] ap) = true := by
  have hfail : failsInvalidArgument (LoDResetCompute x out0 none l ap) = true := by
    apply compute_none_fails_of_validate_ne
    intro hv
    exact absurd ((validateTargetLod_eq_ok_iff l x.dims0).mp hv).2.1 hfirst
  exact ⟨hfail, by rw [compute_some_flat]; exact hfail⟩

/-- C5 witness: [3, 5] starts at 3 ≠ 0 and is rejected at extent 5. -/
theorem C5_first_offset_must_be_zero_witness :
    ([3, 5] : List Int).headD 0 ≠ 0 ∧
    failsInvalidArgument (LoDResetCompute ⟨[10, 20, 30, 40, 50], 5, []⟩ ⟨[], 0, []⟩
      none [3, 5] false) = true :=
  ⟨by decide,
    (C5_first_offset_must_be_zero ⟨[10, 20, 30, 40, 50], 5, []⟩ ⟨[], 0, []⟩
      [3, 5] 0 false (by decide)).1⟩

/-- C9: a flat offset list with fewer than two elements fails with
`InvalidArgument` carrying exactly the size-check message, i.e. before the
start-at-0, last-equals-extent and ascending validations (whose messages
differ), on either flat route and for any list contents. -/
theorem C9_short_list_fails_size_check (x out0 : DenseTensor) (l : List Int)
    (d0 : Int) (ap : Bool) (hshort : l.length ≤ 1) :
    LoDResetCompute x out0 none l ap = .error (.InvalidArgument msgLodSize) ∧
    LoDResetCompute x out0 (some ⟨l, d0, []⟩) [] ap
      = .error (.InvalidArgument msgLodSize) := by
  have h := compute_none_err_of_validate_err x out0 l ap _
    (validateTargetLod_short l x.dims0 hshort)
  exact ⟨h, by rw [compute_some_flat]; exact h⟩

/-- C9 witness: the single-element list [5], whose only element equals the
extent 5, is still rejected with the size-check message. -/
theorem C9_short_list_fails_size_check_witness :
    ([5] : List Int).length ≤ 1 ∧
    LoDResetCompute ⟨[10, 20, 30, 40, 50], 5, []⟩ ⟨[], 0, []⟩ none [5] true
      = .error (.InvalidArgument msgLodSize) :=
  ⟨by decide,
    (C9_short_list_fails_size_check ⟨[10, 20, 30, 40, 50], 5, []⟩ ⟨[], 0, []⟩
      [5] 0 true (by decide)).1⟩

/-- C4 (amended): on every successful run the output buffer is a
byte-for-byte copy of the input buffer and the kernel never reads the
input's own offset annotation (replacing it by any `xl` yields the same
result); the output's annotation equals the supplied new offset index when
the nested route or the replace mode is taken, while in append mode the
supplied level is appended after the output tensor's pre-existing
annotation levels. -/
theorem C4_copy_and_lod_result (x out0 : DenseTensor) (y : Option DenseTensor)
    (tl : List Int) (ap : Bool) (t : DenseTensor) (xl : List (List Nat))
    (hok : LoDResetCompute x out0 y tl ap = .ok t) :
    t.data = x.data ∧ t.dims0 = x.dims0 ∧
    LoDResetCompute ⟨x.data, x.dims0, xl⟩ out0 y tl ap = .ok t ∧
    (y = none →
      t.lod = if ap then out0.lod ++ [tl.map sizeTofInt] else [tl.map sizeTofInt]) ∧
    (∀ yT, y = some yT → yT.lod ≠ [] → t.lod = yT.lod) ∧
    (∀ yT, y = some yT → yT.lod = [] →
      t.lod = if ap then out0.lod ++ [yT.data.map sizeTofInt]
        else [yT.data.map sizeTofInt]) := by
  have hok0 := hok
  cases y with
  | none =>
    obtain ⟨hval, ht⟩ := (compute_none_ok_iff x out0 tl ap t).mp hok
    refine ⟨?_, ?_, hok0, ?_, ?_, ?_⟩
    · rw [ht]; cases ap <;> rfl
    · rw [ht]; cases ap <;> rfl
    · intro _; rw [ht]; cases ap <;> rfl
    · intro yT h _; exact Option.noConfusion h
    · intro yT h _; exact Option.noConfusion h
  | some yT =>
    obtain ⟨yd, yd0, yLod⟩ := yT
    cases yLod with
    | nil =>
      rw [compute_some_flat] at hok
      obtain ⟨hval, ht⟩ := (compute_none_ok_iff x out0 yd ap t).mp hok
      refine ⟨?_, ?_, hok0, ?_, ?_, ?_⟩
      · rw [ht]; cases ap <;> rfl
      · rw [ht]; cases ap <;> rfl
      · intro h; exact Option.noConfusion h
      · intro yT h hne; cases h; exact absurd rfl hne
      · intro yT h _; cases h; rw [ht]; cases ap <;> rfl
    | cons lv lvs =>
      have hy : (lv :: lvs : List (List Nat)) ≠ [] := by simp
      rw [compute_nested_eq x out0 yd yd0 (lv :: lvs) tl ap hy] at hok
      by_cases hlast : i64ofSizeT (((lv :: lvs).getLastD []).getLastD 0) = x.dims0
      · rw [if_pos hlast] at hok
        have ht : t = ⟨x.data, x.dims0, lv :: lvs⟩ :=
          ((Except.ok.injEq _ _).mp hok).symm
        refine ⟨by rw [ht], by rw [ht], hok0, ?_, ?_, ?_⟩
        · intro h; exact Option.noConfusion h
        · intro yT h _; cases h; rw [ht]
        · intro yT h hnil; cases h; exact absurd hnil (by simp)
      · rw [if_neg hlast] at hok
        exact absurd hok (by simp)

/-- C4 witness: a concrete successful append-mode run on which the
theorem's hypothesis holds, together with its byte-copy conclusion. -/
theorem C4_copy_and_lod_result_witness :
    LoDResetCompute ⟨[10, 20, 30, 40, 50], 5, [[0, 1, 5]]⟩ ⟨[], 0, [[0, 5]]⟩
      none [0, 2, 5] true
      = .ok ⟨[10, 20, 30, 40, 50], 5, [[0, 5], [0, 2, 5]]⟩ ∧
    (⟨[10, 20, 30, 40, 50], 5, [[0, 5], [0, 2, 5]]⟩ : DenseTensor).data
      = [10, 20, 30, 40, 50] :=
  ⟨by decide,
    (C4_copy_and_lod_result ⟨[10, 20, 30, 40, 50], 5, [[0, 1, 5]]⟩ ⟨[], 0, [[0, 5]]⟩
      none [0, 2, 5] true ⟨[10, 20, 30, 40, 50], 5, [[0, 5], [0, 2, 5]]⟩ []
      (by decide)).1⟩

/-- C4 counterexample: a successful append-mode run whose output annotation
[[0, 5], [0, 2, 5]] is not the supplied new offset index (the single level
[0, 2, 5]): in append mode the kernel pushes the new level after the output
tensor's pre-existing levels instead of replacing them. -/
theorem C4_append_keeps_prior_levels :
    LoDResetCompute ⟨[10, 20, 30, 40, 50], 5, [[0, 1, 5]]⟩ ⟨[], 0, [[0, 5]]⟩
      none [0, 2, 5] true
      = .ok ⟨[10, 20, 30, 40, 50], 5, [[0, 5], [0, 2, 5]]⟩ ∧
    ([[0, 5], [0, 2, 5]] : List (List Nat)) ≠ [[0, 2, 5]] :=
  ⟨by decide, by decide⟩

/-- C6: the gradient kernel is a pure buffer copy: it is a total function
(no validation can fail) whose result carries the input gradient's buffer
and extent, and it touches nothing else (the destination's annotation is
left as it was). -/
theorem C6_grad_pure_copy (dOut dX0 : DenseTensor) :
    (LoDResetGradCompute dOut dX0).data = dOut.data ∧
    (LoDResetGradCompute dOut dX0).dims0 = dOut.dims0 ∧
    (LoDResetGradCompute dOut dX0).lod = dX0.lod :=
  ⟨rfl, rfl, rfl⟩

/-- C7: every public memory-API entry point of malloc.cc returns exactly the
result of the corresponding `AllocatorFacade` method applied to the same
arguments (for any facade instance and any argument values), performing no
other computation. -/
theorem C7_facade_delegation {SA AP ST GS : Type} (F : AllocatorFacade SA AP ST GS)
    (p : Place) (gp : GPUPlace) (n : Nat) (s : ST) (g : GS) (a : SA) :
    memAllocShared F p n = F.AllocShared p n ∧
    memAlloc F p n = F.Alloc p n ∧
    memRelease F p = F.Release p ∧
    memAllocSharedStream F p n s = F.AllocSharedStream p n s ∧
    memAllocStream F p n s = F.AllocStream p n s ∧
    memInSameStream F a s = F.InSameStream a s ∧
    memGetBasePtr F a = F.GetBasePtr a ∧
    memReleaseStream F gp g = F.ReleaseStream gp g ∧
    memRecordStream F a g = F.RecordStream a g ∧
    memEraseStream F a g = F.EraseStream a g ∧
    memGetStream F a = F.GetStream a :=
  ⟨rfl, rfl, rfl, rfl, rfl, rfl, rfl, rfl, rfl, rfl, rfl⟩

/-- C8: for every place and size, `Alloc` through the facade either returns
an allocation of at least the requested size in the requested place, or
fails with `OutOfMemory`; no null or invalid handle exists in the result
type. -/
theorem C8_alloc_valid_or_oom (pool off : Nat) (p : Place) (s : Nat) :
    (∃ a : Allocation, memAlloc (modelFacade pool off) p s = .ok a ∧
      s ≤ a.size ∧ a.place = p) ∨
    memAlloc (modelFacade pool off) p s = .OutOfMemory := by
  have hdel : memAlloc (modelFacade pool off) p s = strategyAlloc pool off p s := rfl
  rw [hdel]
  unfold strategyAlloc
  split_ifs with h
  · exact .inl ⟨⟨off, s, p⟩, rfl, le_refl s, rfl⟩
  · exact .inr rfl

/-- C10: once a flat list passes validation, append mode pushes the new
level after the output tensor's existing levels while replace mode installs
a single-level index holding only the new list. -/
theorem C10_append_or_replace (x out0 : DenseTensor) (l : List Int)
    (hval : validateTargetLod l x.dims0 = .ok ()) :
    LoDResetCompute x out0 none l true
      = .ok ⟨x.data, x.dims0, out0.lod ++ [l.map sizeTofInt]⟩ ∧
    LoDResetCompute x out0 none l false
      = .ok ⟨x.data, x.dims0, [l.map sizeTofInt]⟩ := by
  constructor
  · rw [compute_none_ok_iff]
    exact ⟨hval, rfl⟩
  · rw [compute_none_ok_iff]
    exact ⟨hval, rfl⟩

/-- C10 witness: with pre-existing output level [[0, 1, 5]] and validated
list [0, 2, 5] at extent 5, append mode yields [[0, 1, 5], [0, 2, 5]]. -/
theorem C10_append_or_replace_witness :
    validateTargetLod [0, 2, 5] (5 : Int) = .ok () ∧
    LoDResetCompute ⟨[10, 20, 30, 40, 50], 5, []⟩ ⟨[], 0, [[0, 1, 5]]⟩
      none [0, 2, 5] true
      = .ok ⟨[10, 20, 30, 40, 50], 5, [[0, 1, 5], [0, 2, 5]]⟩ := by
  refine ⟨by decide, ?_⟩
  rw [(C10_append_or_replace ⟨[10, 20, 30, 40, 50], 5, []⟩ ⟨[], 0, [[0, 1, 5]]⟩
    [0, 2, 5] (by decide)).1]
  decide

example : LoDResetCompute ⟨[10, 20, 30, 40, 50], 5, []⟩ ⟨[], 0, []⟩ none [0, 2, 5] false
    = .ok ⟨[10, 20, 30, 40, 50], 5, [[0, 2, 5]]⟩ := by decide

example : LoDResetCompute ⟨[10, 20, 30, 40, 50], 5, []⟩ ⟨[], 0, []⟩ none [0, 2, 4] false
    = .error (.InvalidArgument msgLodLast) := by decide

example : LoDResetCompute ⟨[10, 20, 30, 40, 50], 5, []⟩ ⟨[], 0, []⟩ none [0, 3, 2, 5] false
    = .error (.InvalidArgument msgLodAscending) := by decide

example : LoDResetCompute ⟨[10, 20, 30, 40, 50], 5, []⟩ ⟨[], 0, []⟩ none [0, 2, 2, 5] false
    = .ok ⟨[10, 20, 30, 40, 50], 5, [[0, 2, 2, 5]]⟩ := by decide

example : LoDResetCompute ⟨[10, 20, 30, 40, 50], 5, [[0, 5]]⟩ ⟨[], 0, []⟩
    (some ⟨[9, 9], 2, [[0, 3, 2, 5]]⟩) [] true
    = .ok ⟨[10, 20, 30, 40, 50], 5, [[0, 3, 2, 5]]⟩ := by decide
